import Mathlib

set_option maxHeartbeats 1000000

namespace BackendScaleway

/-! Shallow embedding of `server.js` of the backendScaleway repository.
JavaScript strings are modelled as Lean `String` (operating on `String.data`
character lists where needed); JS truthiness of optional string values is
modelled by `jsTruthy`; thrown JS exceptions are modelled by an explicit
`thrown : Option JsError` component of each handler's output. -/

/-- Model of JS truthiness for an optional string value: `undefined`/absent and
the empty string are falsy, every other string is truthy. -/
def jsTruthy : Option String → Option String
  | some s => if s = "" then none else some s
  | none => none

/-- Model of the whitespace class used by `String.prototype.trim` (ASCII-faithful). -/
def isJsSpace (c : Char) : Bool := c.isWhitespace

/-- Model of `s.trim()`: drop whitespace from both ends. -/
def jsTrimS (s : String) : String :=
  ⟨((s.data.dropWhile isJsSpace).reverse.dropWhile isJsSpace).reverse⟩

/-- Model of `s.toLowerCase()` (ASCII-faithful). -/
def jsToLower (s : String) : String := ⟨s.data.map Char.toLower⟩

/-- Model of `s.toUpperCase()` (ASCII-faithful). -/
def jsToUpper (s : String) : String := ⟨s.data.map Char.toUpper⟩

/-- Model of a single-character global regex replace `str.replace(/c/g, repl)`:
every occurrence of the character `c` is replaced by `repl`, in one left-to-right
pass that never rescans the replacement text. -/
def replaceChar (c : Char) (repl : List Char) (l : List Char) : List Char :=
  l.flatMap (fun ch => if ch = c then repl else [ch])

/-- Embedding of `escapeXml` (server.js lines 75-82) on character lists: the
five sequential global replaces, in source order (`&` first). -/
def escapeXmlData (l : List Char) : List Char :=
  replaceChar ('\'') (("&apos;").data)
    (replaceChar ('"') (("&quot;").data)
      (replaceChar ('>') (("&gt;").data)
        (replaceChar ('<') (("&lt;").data)
          (replaceChar ('&') (("&amp;").data) l))))

/-- Embedding of `escapeXml` (server.js lines 75-82). -/
def escapeXml (s : String) : String := ⟨escapeXmlData s.data⟩

/-- The per-character entity map the specification describes: each of the five
reserved markup characters goes to its named entity, everything else is kept. -/
def escChar (c : Char) : List Char :=
  if c = '&' then ("&amp;").data
  else if c = '<' then ("&lt;").data
  else if c = '>' then ("&gt;").data
  else if c = '"' then ("&quot;").data
  else if c = '\'' then ("&apos;").data
  else [c]

/-- Single-pass escaping as the specification states it: one simultaneous
character-by-character substitution, applied exactly once. -/
def singlePassEscape (s : String) : String := ⟨s.data.flatMap escChar⟩

lemma replaceChar_append (c : Char) (r a b : List Char) :
    replaceChar c r (a ++ b) = replaceChar c r a ++ replaceChar c r b := by
  simp [replaceChar]

lemma escapeXmlData_append (a b : List Char) :
    escapeXmlData (a ++ b) = escapeXmlData a ++ escapeXmlData b := by
  simp [escapeXmlData, replaceChar_append]

lemma escapeXmlData_singleton (c : Char) : escapeXmlData [c] = escChar c := by
  by_cases h1 : c = '&'
  · subst h1; rfl
  by_cases h2 : c = '<'
  · subst h2; rfl
  by_cases h3 : c = '>'
  · subst h3; rfl
  by_cases h4 : c = '"'
  · subst h4; rfl
  by_cases h5 : c = '\''
  · subst h5; rfl
  simp [escapeXmlData, replaceChar, escChar, h1, h2, h3, h4, h5]

lemma escapeXmlData_eq_flatMap (l : List Char) : escapeXmlData l = l.flatMap escChar := by
  induction l with
  | nil => rfl
  | cons c t ih =>
    have hsplit : c :: t = [c] ++ t := rfl
    rw [hsplit, escapeXmlData_append, escapeXmlData_singleton, ih]
    simp

/-! ### SSML builder (server.js lines 84-112) -/

/-- Parameter object of `buildSSML` (server.js line 84); absent properties of the
JS options object are `none`, and the silence durations default to `0` at the
destructuring site. -/
structure SSMLParams where
  text : String
  voice : String
  style : Option String := none
  styleDegree : Option String := none
  rate : Option String := none
  pitch : Option String := none
  volume : Option String := none
  leadingSilenceMs : Nat := 0
  trailingSilenceMs : Nat := 0

/-- The `ns` constant of `buildSSML` (server.js line 85). -/
def ssmlNs : String := "xmlns:mstts=\"https://www.w3.org/2001/mstts\""

/-- `voice.substring(0, 5)` (server.js line 86): the first five characters. -/
def jsSubstring05 (s : String) : String := ⟨s.data.take 5⟩

/-- The `prosodyAttrs` constant (server.js lines 88-92): the truthy attributes
among rate/pitch/volume, joined with a single space. -/
def prosodyAttrsOf (p : SSMLParams) : String :=
  String.intercalate (" ") (List.filterMap (fun x => x)
    [ (jsTruthy p.rate).map (fun r => ("rate=\"") ++ r ++ ("\"")),
      (jsTruthy p.pitch).map (fun x => ("pitch=\"") ++ x ++ ("\"")),
      (jsTruthy p.volume).map (fun v => ("volume=\"") ++ v ++ ("\"")) ])

/-- The `openProsody` constant (server.js line 94). -/
def openProsodyOf (p : SSMLParams) : String :=
  if prosodyAttrsOf p = "" then ("") else ("<prosody ") ++ prosodyAttrsOf p ++ (">")

/-- The `closeProsody` constant (server.js line 95). -/
def closeProsodyOf (p : SSMLParams) : String :=
  if prosodyAttrsOf p = "" then ("") else ("</prosody>")

/-- The `expressOpen` constant (server.js line 97). -/
def expressOpenOf (p : SSMLParams) : String :=
  match jsTruthy p.style with
  | some st =>
    ("<mstts:express-as style=\"") ++ st ++ ("\"") ++
      (match jsTruthy p.styleDegree with
       | some d => (" styledegree=\"") ++ d ++ ("\"")
       | none => ("")) ++ (">")
  | none => ("")

/-- The `expressClose` constant (server.js line 98). -/
def expressCloseOf (p : SSMLParams) : String :=
  match jsTruthy p.style with
  | some _ => ("</mstts:express-as>")
  | none => ("")

/-- Embedding of `buildSSML` (server.js lines 84-112): the template literal,
transcribed with its exact newlines and indentation, followed by `.trim()`. -/
def buildSSML (p : SSMLParams) : String :=
  jsTrimS (("\n<speak version=\"1.0\" ") ++ ssmlNs ++ (" xml:lang=\"") ++
    jsSubstring05 p.voice ++ ("\">\n  <voice name=\"") ++ p.voice ++
    ("\">\n    <mstts:silence type=\"Leading\" value=\"") ++ Nat.repr p.leadingSilenceMs ++
    ("ms\"/>\n    <mstts:silence type=\"Tailing\" value=\"") ++ Nat.repr p.trailingSilenceMs ++
    ("ms\"/>\n    ") ++ expressOpenOf p ++ ("\n      ") ++ openProsodyOf p ++
    ("\n        ") ++ escapeXml p.text ++ ("\n      ") ++ closeProsodyOf p ++
    ("\n    ") ++ expressCloseOf p ++ ("\n  </voice>\n</speak>"))

/-- Everything of the SSML template that precedes the escaped text slot. -/
def ssmlPre (p : SSMLParams) : String :=
  ("\n<speak version=\"1.0\" ") ++ ssmlNs ++ (" xml:lang=\"") ++
    jsSubstring05 p.voice ++ ("\">\n  <voice name=\"") ++ p.voice ++
    ("\">\n    <mstts:silence type=\"Leading\" value=\"") ++ Nat.repr p.leadingSilenceMs ++
    ("ms\"/>\n    <mstts:silence type=\"Tailing\" value=\"") ++ Nat.repr p.trailingSilenceMs ++
    ("ms\"/>\n    ") ++ expressOpenOf p ++ ("\n      ") ++ openProsodyOf p ++ ("\n        ")

/-- Everything of the SSML template that follows the escaped text slot. -/
def ssmlPost (p : SSMLParams) : String :=
  ("\n      ") ++ closeProsodyOf p ++ ("\n    ") ++ expressCloseOf p ++ ("\n  </voice>\n</speak>")

lemma string_data_append (a b : String) : (a ++ b).data = a.data ++ b.data := rfl

lemma string_append_assoc (a b c : String) : a ++ b ++ c = a ++ (b ++ c) := by
  cases a with
  | mk x =>
    cases b with
    | mk y =>
      cases c with
      | mk z => exact congrArg String.mk (List.append_assoc x y z)

/-! ### Response sink, upstream actions, thrown errors -/

/-- A JSON scalar value, enough for every response body the router produces. -/
inductive JVal
  | str (s : String)
  | num (n : Nat)
deriving DecidableEq

/-- A flat JSON object, as passed to `res.json`. -/
abbrev JBody := List (String × JVal)

/-- A chat message `{role, content}`. -/
structure ChatMsg where
  role : String
  content : String
deriving DecidableEq

/-- One observable effect on the Express response object `res`. -/
inductive SinkEvent
  | setHeader (name value : String)
  | flushHeaders
  | write (frame : String)
  | statusCode (code : Nat)
  | jsonBody (body : JBody)
  | sendBytes (bytes : List Nat)
  | endR
deriving DecidableEq

/-- One upstream network call (or poll sleep) a handler performs. -/
inductive UpstreamAction
  | threadsCreate (messages : List ChatMsg)
  | threadMessageCreate (threadId : String) (message : ChatMsg)
  | runsCreate (threadId : String)
  | runsCreateStream (threadId : String)
  | runsRetrieve (threadId runId : String)
  | sleep (ms : Nat)
  | messagesList (threadId : String) (limit : Nat) (order : String)
  | chatCompletionsCreateStream (model : String) (messages : List ChatMsg)
  | vertexGenerateContentStream (prompt : String)
  | openaiSpeech (model voice input : String)
  | elevenlabsTts (voiceId : String) (text : Option String)
deriving DecidableEq

/-- A thrown JS exception that escapes a handler branch. -/
inductive JsError
  | referenceError (message : String)
  | upstreamError (message : String) (statusCode : Option Nat)
deriving DecidableEq

/-- The complete observable outcome of one handler branch: the upstream calls it
issued, the events it applied to the response sink, and the exception (if any)
that escaped the branch into the router's outer `catch`. -/
structure HandlerOut where
  upstream : List UpstreamAction
  sink : List SinkEvent
  thrown : Option JsError
deriving DecidableEq

/-! ### SSE frame texts (`res.write` payloads) -/

/-- A hexadecimal digit character (lowercase), for `JSON.stringify` control escapes. -/
def hexDigit (n : Nat) : Char := if n < 10 then Char.ofNat (48 + n) else Char.ofNat (87 + n)

/-- Model of the character escaping performed by `JSON.stringify` on strings. -/
def jsonEscapeChar (c : Char) : List Char :=
  if c = '"' then ['\\', '"']
  else if c = '\\' then ['\\', '\\']
  else if c = '\n' then ['\\', 'n']
  else if c = '\r' then ['\\', 'r']
  else if c = '\t' then ['\\', 't']
  else if c.toNat = 8 then ['\\', 'b']
  else if c.toNat = 12 then ['\\', 'f']
  else if c.toNat < 32 then ['\\', 'u', '0', '0', hexDigit (c.toNat / 16), hexDigit (c.toNat % 16)]
  else [c]

/-- Model of `JSON.stringify` applied to a string value. -/
def jsStringLit (s : String) : String := ("\"") ++ ⟨s.data.flatMap jsonEscapeChar⟩ ++ ("\"")

/-- An SSE frame: `data: ` + payload + two trailing newlines. -/
def sseFrame (payload : String) : String := ("data: ") ++ payload ++ ("\n\n")

/-- The stream terminator sentinel frame `data: [DONE]\n\n`. -/
def doneFrameText : String := "data: [DONE]\n\n"

/-- The frame `data: ${JSON.stringify({ delta })}\n\n`. -/
def deltaFrameText (d : String) : String :=
  sseFrame (("\x7b\"delta\":") ++ jsStringLit d ++ ("\x7d"))

/-- The frame `data: ${JSON.stringify({ error: msg })}\n\n`. -/
def errorFrameText (m : String) : String :=
  sseFrame (("\x7b\"error\":") ++ jsStringLit m ++ ("\x7d"))

/-- The double-wrapped delta frame of the `openaiSimulateur` branch (server.js line 221). -/
def choicesFrameText (d : String) : String :=
  sseFrame (("\x7b\"choices\":[\x7b\"delta\":\x7b\"content\":") ++ jsStringLit d ++ ("\x7d\x7d]\x7d"))

/-- The usage frame of the `openaiSimulateur` branch (server.js line 225). -/
def usageFrameText (n : Nat) : String :=
  sseFrame (("\x7b\"usage\":\x7b\"total_tokens\":") ++ Nat.repr n ++ ("\x7d\x7d"))

/-- The thread-id frame of the `assistantOpenaiAnalyseStreaming` branch (server.js line 265). -/
def threadIdFrameText (tid : String) : String :=
  sseFrame (("\x7b\"threadId\":") ++ jsStringLit tid ++ ("\x7d"))

/-- The SSE headers set by the two-header streaming branches, then `flushHeaders`. -/
def sseHeaders2 : List SinkEvent :=
  [.setHeader ("Content-Type") ("text/event-stream"),
   .setHeader ("Cache-Control") ("no-cache"),
   .flushHeaders]

/-- The SSE headers of the `openaiAnalyse` branch (server.js lines 278-282). -/
def sseHeaders4 : List SinkEvent :=
  [.setHeader ("Content-Type") ("text/event-stream"),
   .setHeader ("Cache-Control") ("no-cache"),
   .setHeader ("Connection") ("keep-alive"),
   .setHeader ("Access-Control-Allow-Origin") ("*"),
   .flushHeaders]

/-! ### Streaming handler branches -/

/-- Oracle for one upstream streaming invocation: the delta payloads of the
items the iteration delivered (in arrival order, `none` when an item carries no
text), whether the call or the iteration then threw (`err`), and the final
usage statistics when present. -/
structure StreamRun where
  items : List (Option String)
  err : Option String
  usageTokens : Option Nat := none
deriving DecidableEq

/-- The writes of a streaming loop body: one `res.write` per truthy delta, in
arrival order (`if (delta) res.write(...)`). -/
def deltaLoopWrites (frame : String → String) (items : List (Option String)) : List SinkEvent :=
  (items.filterMap jsTruthy).map (fun d => SinkEvent.write (frame d))

/-- The prompt string built by the `vertexChat` branch (server.js line 167). -/
def vertexPrompt (messages : List ChatMsg) : String :=
  String.intercalate ("\n") (messages.map (fun m => jsToUpper m.role ++ (": ") ++ m.content))

/-- Embedding of the `vertexChat` streaming invocation (server.js lines 185-205).
The branch sets and flushes the SSE headers before the first `await`, so when
the `catch` runs `res.headersSent` is always true: the catch writes one error
frame, then the `[DONE]` sentinel, then ends the response. -/
def vertexChatStreamingH (messages : List ChatMsg) (run : StreamRun) : HandlerOut :=
  { upstream := [.vertexGenerateContentStream (vertexPrompt messages)]
    sink := sseHeaders2 ++ deltaLoopWrites deltaFrameText run.items ++
      (match run.err with
       | none => [.write doneFrameText, .endR]
       | some m => [.write (errorFrameText m), .write doneFrameText, .endR])
    thrown := none }

/-- Request body fields used by the chat-completion streaming branches. -/
structure ChatBody where
  model : String
  messages : List ChatMsg
deriving DecidableEq

/-- Embedding of the `openaiSimulateur` branch (server.js lines 208-228). There
is no `try`/`catch` in this branch: an upstream error thrown after the headers
were flushed escapes to the router's outer catch, and neither the usage frame
nor the `[DONE]` sentinel is written. -/
def openaiSimulateurH (body : ChatBody) (run : StreamRun) : HandlerOut :=
  { upstream := [.chatCompletionsCreateStream body.model body.messages]
    sink := sseHeaders2 ++ deltaLoopWrites choicesFrameText run.items ++
      (match run.err with
       | none => [.write (usageFrameText (run.usageTokens.getD 0)), .write doneFrameText, .endR]
       | some _ => [])
    thrown := run.err.map (fun m => JsError.upstreamError m none) }

/-- Embedding of the `openaiAnalyse` branch (server.js lines 276-300). Its
`catch` writes one error frame with the fixed message and then calls `res.end()`
without writing the `[DONE]` sentinel. -/
def openaiAnalyseH (body : ChatBody) (run : StreamRun) : HandlerOut :=
  { upstream := [.chatCompletionsCreateStream body.model body.messages]
    sink := sseHeaders4 ++ deltaLoopWrites deltaFrameText run.items ++
      (match run.err with
       | none => [.write doneFrameText, .endR]
       | some _ => [.write (errorFrameText ("Errore durante lo streaming AI.")), .endR])
    thrown := none }

/-- Request body fields used by the `assistantOpenaiAnalyseStreaming` branch. -/
structure AssistantStreamBody where
  threadId : Option String
  messages : List ChatMsg
deriving DecidableEq

/-- Embedding of the `assistantOpenaiAnalyseStreaming` branch (server.js lines
249-274). With a truthy `threadId`, each message is appended to the existing
thread and no thread-id frame is written; otherwise a new thread is created and
its id is written as the first frame of the stream, before any delta frame.
There is no `try`/`catch` in the branch, so a mid-stream upstream error escapes
to the router's outer catch without a sentinel. -/
def assistantStreamingH (body : AssistantStreamBody) (createdThreadId : String)
    (run : StreamRun) : HandlerOut :=
  match jsTruthy body.threadId with
  | some t =>
    { upstream := body.messages.map (fun m => .threadMessageCreate t m) ++ [.runsCreateStream t]
      sink := sseHeaders2 ++ deltaLoopWrites deltaFrameText run.items ++
        (match run.err with
         | none => [.write doneFrameText, .endR]
         | some _ => [])
      thrown := run.err.map (fun m => JsError.upstreamError m none) }
  | none =>
    { upstream := [.threadsCreate body.messages, .runsCreateStream createdThreadId]
      sink := sseHeaders2 ++ [.write (threadIdFrameText createdThreadId)] ++
        deltaLoopWrites deltaFrameText run.items ++
        (match run.err with
         | none => [.write doneFrameText, .endR]
         | some _ => [])
      thrown := run.err.map (fun m => JsError.upstreamError m none) }

/-! ### Poll-based analysis branch -/

/-- Embedding of the do-while poll loop of `assistantOpenaiAnalyse` (server.js
lines 236-240): each iteration sleeps 1000 ms, then retrieves the run status;
the loop repeats while the status is neither "completed" nor "failed". The
argument list is the oracle of successive `retrieve` results; the returned
option is the first terminal status, `none` when the oracle is exhausted
without a terminal status (the loop would keep polling). -/
def pollLoop (threadId runId : String) : List String → List UpstreamAction × Option String
  | [] => ([], none)
  | s :: rest =>
    if s = "completed" ∨ s = "failed" then
      ([.sleep 1000, .runsRetrieve threadId runId], some s)
    else
      let r := pollLoop threadId runId rest
      ([.sleep 1000, .runsRetrieve threadId runId] ++ r.1, r.2)

/-- Embedding of the `assistantOpenaiAnalyse` branch (server.js lines 230-247):
create a thread and a run, poll until the status is terminal, answer 500 with
`{error: "Assistant run failed", details: status}` when the terminal status is
not "completed", and otherwise fetch the most recent thread message and return
it as one batch JSON result. Returns `none` when the poll oracle never reaches
a terminal status (the branch would not respond). -/
def assistantAnalyseH (messages : List ChatMsg) (createdThreadId runId : String)
    (statuses : List String) (lastMessage : Option String) : Option HandlerOut :=
  let poll := pollLoop createdThreadId runId statuses
  match poll.2 with
  | none => none
  | some st =>
    some
      { upstream := [.threadsCreate messages, .runsCreate createdThreadId] ++ poll.1 ++
          (if st ≠ "completed" then [] else [.messagesList createdThreadId 1 ("desc")])
        sink :=
          if st ≠ "completed" then
            [.statusCode 500,
             .jsonBody [(("error"), .str ("Assistant run failed")), (("details"), .str st)]]
          else
            [.jsonBody [(("answer"), .str (lastMessage.getD ("")))]]
        thrown := none }

/-! ### Text-to-speech branches -/

/-- Outcome oracle for one upstream TTS HTTP call. -/
inductive UpstreamTtsResult
  | success (audioData : List Nat)
  | failure (statusCode : Option Nat) (message : String)
deriving DecidableEq

/-- Request body fields used by the OpenAI TTS branches. -/
structure TtsBody where
  text : Option String
  selectedVoice : Option String
deriving DecidableEq

/-- The fixed voice allow-list of the `openai-tts` branch (server.js line 324). -/
def allowedVoices : List String :=
  [("alloy"), ("echo"), ("fable"), ("onyx"), ("nova"), ("shimmer")]

/-- The normalisation `(selectedVoice || "").trim().toLowerCase()` applied on
both sides of the allow-list test. -/
def normVoice (selectedVoice : Option String) : String :=
  jsToLower (jsTrimS (selectedVoice.getD ("")))

/-- The voice selection of the `openai-tts` branch (server.js lines 325-327).
In the source the true branch recomputes `selectedVoice.trim().toLowerCase()`,
which equals the normalised value tested for membership (and the membership
test can only succeed when `selectedVoice` is present, since the empty string
is not in the allow-list). -/
def openaiTtsVoice (selectedVoice : Option String) : String :=
  if allowedVoices.contains (normVoice selectedVoice) then normVoice selectedVoice
  else ("fable")

/-- The fixed voice allow-list of the `streaming-openai-tts` branch (server.js line 483). -/
def allowedVoicesStreaming : List String :=
  [("alloy"), ("echo"), ("fable"), ("onyx"), ("nova"), ("shimmer")]

/-- The voice selection of the `streaming-openai-tts` branch (server.js lines 484-486). -/
def streamingOpenaiTtsVoice (selectedVoice : Option String) : String :=
  if allowedVoicesStreaming.contains (normVoice selectedVoice) then normVoice selectedVoice
  else ("fable")

/-- Embedding of the `openai-tts` branch (server.js lines 318-340). -/
def openaiTtsH (apiKey : Option String) (body : TtsBody) (up : UpstreamTtsResult) : HandlerOut :=
  if jsTruthy apiKey = none then
    ⟨[], [.statusCode 500, .jsonBody [(("error"), .str ("OpenAI API key missing"))]], none⟩
  else if jsTruthy body.text = none then
    ⟨[], [.statusCode 400, .jsonBody [(("error"), .str ("Text is required"))]], none⟩
  else
    let voice := openaiTtsVoice body.selectedVoice
    let call := UpstreamAction.openaiSpeech ("gpt-4o-mini-tts") voice (body.text.getD (""))
    match up with
    | .success audioData =>
      ⟨[call], [.setHeader ("Content-Type") ("audio/mpeg"), .sendBytes audioData], none⟩
    | .failure st m =>
      ⟨[call],
       [.statusCode (st.getD 500),
        .jsonBody [(("error"), .str ("OpenAI TTS failed")), (("details"), .str m)]], none⟩

/-- Request body fields used by the `elevenlabs` branch. -/
structure ElevenBody where
  text : Option String
  selectedLanguage : Option String
deriving DecidableEq

/-- The static language-to-voice map of the `elevenlabs` branch (server.js line 599). -/
def elevenVoiceMap (lang : String) : Option String :=
  if lang = ("espagnol") then some ("l1zE9xgNpUTaQCZzpNJa")
  else if lang = ("français") then some ("1a3lMdKLUcfcMtvN772u")
  else if lang = ("anglais") then some ("7tRwuZTD1EWi6nydVerp")
  else none

/-- Embedding of the `elevenlabs` branch (server.js lines 594-622): missing API
key answers 500; an unmapped language answers 400 `{error: "Not supported
language"}` before any upstream call; otherwise the upstream call is issued. -/
def elevenlabsH (apiKey : Option String) (body : ElevenBody) (up : UpstreamTtsResult) : HandlerOut :=
  if jsTruthy apiKey = none then
    ⟨[], [.statusCode 500, .jsonBody [(("error"), .str ("ElevenLabs API key missing"))]], none⟩
  else
    let lang := jsToLower (jsTrimS (body.selectedLanguage.getD ("")))
    match elevenVoiceMap lang with
    | none =>
      ⟨[], [.statusCode 400, .jsonBody [(("error"), .str ("Not supported language"))]], none⟩
    | some voiceId =>
      let call := UpstreamAction.elevenlabsTts voiceId body.text
      match up with
      | .success audioData =>
        ⟨[call], [.setHeader ("Content-Type") ("audio/mpeg"), .sendBytes audioData], none⟩
      | .failure (some st) m =>
        ⟨[call], [.statusCode st, .jsonBody [(("error"), .str m)]], none⟩
      | .failure none _ =>
        ⟨[call],
         [.statusCode 500, .jsonBody [(("error"), .str ("Unknown error with ElevenLabs"))]], none⟩

/-- Request body fields used by the `azureTTS-Scaleway` branch. -/
structure AzureScalewayBody where
  text : Option String
  selectedLanguage : Option String
  selectedVoice : Option String
deriving DecidableEq

/-- The static language-to-voice map of the `azureTTS-Scaleway` branch
(server.js lines 412-416). -/
def azureVoiceMap (lang : String) : Option String :=
  if lang = ("français") then some ("fr-FR-RemyMultilingualNeural")
  else if lang = ("espagnol") then some ("es-ES-ElviraNeural")
  else if lang = ("anglais") then some ("en-US-JennyNeural")
  else none

/-- The voice computation of the `azureTTS-Scaleway` branch (server.js lines
417-418): `(selectedVoice && selectedVoice.trim()) || voiceMap[lang] ||
"fr-FR-RemyMultilingualNeural"` — an unmapped language with no override is
silently replaced by the French default voice. -/
def azureScalewayVoice (selectedVoice selectedLanguage : Option String) : String :=
  let lang := jsToLower (jsTrimS (selectedLanguage.getD ("")))
  match jsTruthy ((jsTruthy selectedVoice).map jsTrimS) with
  | some v => v
  | none => (azureVoiceMap lang).getD ("fr-FR-RemyMultilingualNeural")

/-- Embedding of the `azureTTS-Scaleway` branch (server.js lines 393-476).
After the text and env-var guards, line 421 reads `const safeStyle = style &&
style !== "default" ? style : null;` where the identifier `style` is not
declared in any enclosing scope (the body destructuring on lines 394-398 binds
only `text`, `selectedLanguage`, `selectedVoice`), so evaluating it throws
`ReferenceError: style is not defined` before `buildSSML` is invoked and before
any upstream call; the embedding models that statement as the thrown error. -/
def azureTtsScalewayH (apiKey region : Option String) (body : AzureScalewayBody) : HandlerOut :=
  if jsTruthy body.text = none then
    ⟨[], [.statusCode 400, .jsonBody [(("error"), .str ("Text is required"))]], none⟩
  else if jsTruthy apiKey = none ∨ jsTruthy region = none then
    ⟨[],
     [.statusCode 500,
      .jsonBody [(("error"),
        .str ("Missing Azure Speech env vars (AZURE_TTS_KEY_AI_SERVICES, AZURE_REGION_AI_SERVICES)"))]],
     none⟩
  else
    let _voice := azureScalewayVoice body.selectedVoice body.selectedLanguage
    ⟨[], [], some (.referenceError ("style is not defined"))⟩

/-! ### Service router -/

/-- The closed set of service names handled by the if/else chain of
`POST /api/:service` (server.js lines 146-622), in source order. -/
def handledServices : List String :=
  [("azureOpenaiSimulateur"), ("vertexChat"), ("openaiSimulateur"),
   ("assistantOpenaiAnalyse"), ("assistantOpenaiAnalyseStreaming"), ("openaiAnalyse"),
   ("azureOpenaiAnalyse"), ("openai-tts"), ("azureTTS-Scaleway"),
   ("streaming-openai-tts"), ("azureTextToSpeech"), ("userList"),
   ("updateUserGroup"), ("elevenlabs")]

/-- One tag per handled service branch. -/
inductive ServiceTag
  | azureOpenaiSimulateur | vertexChat | openaiSimulateur | assistantOpenaiAnalyse
  | assistantOpenaiAnalyseStreaming | openaiAnalyse | azureOpenaiAnalyse | openaiTts
  | azureTtsScaleway | streamingOpenaiTts | azureTextToSpeech | userList
  | updateUserGroup | elevenlabs
deriving DecidableEq

/-- The service-name dispatch of the router: the if/else chain on `service`
(server.js lines 146-627), `none` for the fallback else. -/
def dispatch (service : String) : Option ServiceTag :=
  if service = ("azureOpenaiSimulateur") then some .azureOpenaiSimulateur
  else if service = ("vertexChat") then some .vertexChat
  else if service = ("openaiSimulateur") then some .openaiSimulateur
  else if service = ("assistantOpenaiAnalyse") then some .assistantOpenaiAnalyse
  else if service = ("assistantOpenaiAnalyseStreaming") then some .assistantOpenaiAnalyseStreaming
  else if service = ("openaiAnalyse") then some .openaiAnalyse
  else if service = ("azureOpenaiAnalyse") then some .azureOpenaiAnalyse
  else if service = ("openai-tts") then some .openaiTts
  else if service = ("azureTTS-Scaleway") then some .azureTtsScaleway
  else if service = ("streaming-openai-tts") then some .streamingOpenaiTts
  else if service = ("azureTextToSpeech") then some .azureTextToSpeech
  else if service = ("userList") then some .userList
  else if service = ("updateUserGroup") then some .updateUserGroup
  else if service = ("elevenlabs") then some .elevenlabs
  else none

/-- The fallback else of the router (server.js lines 624-627):
`res.status(400).json({error: "Invalid service"})`, with no upstream call. -/
def invalidServiceOut : HandlerOut :=
  ⟨[], [.statusCode 400, .jsonBody [(("error"), .str ("Invalid service"))]], none⟩

/-- The router: dispatch on the service name, fall back to the invalid-service
response. The behaviour of each matched branch is supplied as an oracle. -/
def route (handlers : ServiceTag → HandlerOut) (service : String) : HandlerOut :=
  match dispatch service with
  | some t => handlers t
  | none => invalidServiceOut

/-- The HTTP status the router's outer catch derives from a thrown error
(server.js line 629): `error?.response?.status || 500`. -/
def jsErrorStatus : JsError → Nat
  | .referenceError _ => 500
  | .upstreamError _ st => st.getD 500

/-- The `message` property of a thrown error. -/
def jsErrorMessage : JsError → String
  | .referenceError m => m
  | .upstreamError m _ => m

/-- The router's outer catch (server.js lines 628-655) for an error carrying no
upstream response (such as a `ReferenceError`): status 500 and the generic
`API request error` JSON body with empty `requestId` and no `details` field
(`JSON.stringify` drops the undefined `details`). -/
def routerCatchSink (service : String) (e : JsError) : List SinkEvent :=
  [.statusCode (jsErrorStatus e),
   .jsonBody [(("error"), .str ("API request error")), (("service"), .str service),
              (("status"), .num (jsErrorStatus e)), (("message"), .str (jsErrorMessage e)),
              (("requestId"), .str (""))]]

/-- The full sink trace of a routed request: the handler's own writes followed,
when the branch threw, by the outer catch's response. -/
def routedSink (service : String) (h : HandlerOut) : List SinkEvent :=
  h.sink ++ (match h.thrown with | none => [] | some e => routerCatchSink service e)

/-! ### Observations on sink traces -/

/-- The frame payload of a `write` event, `none` for every other event. -/
def writeq : SinkEvent → Option String
  | .write s => some s
  | .setHeader _ _ => none
  | .flushHeaders => none
  | .statusCode _ => none
  | .jsonBody _ => none
  | .sendBytes _ => none
  | .endR => none

@[simp] lemma writeq_write (s : String) : writeq (.write s) = some s := rfl
@[simp] lemma writeq_setHeader (n v : String) : writeq (.setHeader n v) = none := rfl
@[simp] lemma writeq_flushHeaders : writeq .flushHeaders = none := rfl
@[simp] lemma writeq_statusCode (c : Nat) : writeq (.statusCode c) = none := rfl
@[simp] lemma writeq_jsonBody (b : JBody) : writeq (.jsonBody b) = none := rfl
@[simp] lemma writeq_sendBytes (b : List Nat) : writeq (.sendBytes b) = none := rfl
@[simp] lemma writeq_endR : writeq .endR = none := rfl

/-- The sequence of frames written to the sink, in order. -/
def writesOf (evs : List SinkEvent) : List String := evs.filterMap writeq

/-- Whether an event is `res.end()`. -/
def isEndEv : SinkEvent → Bool
  | .endR => true
  | .setHeader _ _ => false
  | .flushHeaders => false
  | .write _ => false
  | .statusCode _ => false
  | .jsonBody _ => false
  | .sendBytes _ => false

@[simp] lemma isEndEv_write (s : String) : isEndEv (.write s) = false := rfl
@[simp] lemma isEndEv_setHeader (n v : String) : isEndEv (.setHeader n v) = false := rfl
@[simp] lemma isEndEv_flushHeaders : isEndEv .flushHeaders = false := rfl
@[simp] lemma isEndEv_statusCode (c : Nat) : isEndEv (.statusCode c) = false := rfl
@[simp] lemma isEndEv_jsonBody (b : JBody) : isEndEv (.jsonBody b) = false := rfl
@[simp] lemma isEndEv_sendBytes (b : List Nat) : isEndEv (.sendBytes b) = false := rfl
@[simp] lemma isEndEv_endR : isEndEv .endR = true := rfl

/-- How many times the sink is closed. -/
def endCount (evs : List SinkEvent) : Nat := (evs.filter isEndEv).length

@[simp] lemma writesOf_nil : writesOf [] = [] := rfl

@[simp] lemma writesOf_append (a b : List SinkEvent) :
    writesOf (a ++ b) = writesOf a ++ writesOf b := by
  simp [writesOf]

@[simp] lemma writesOf_sseHeaders2 : writesOf sseHeaders2 = [] := rfl

@[simp] lemma writesOf_sseHeaders4 : writesOf sseHeaders4 = [] := rfl

lemma writesOf_map_write (frame : String → String) (l : List String) :
    writesOf (l.map (fun d => SinkEvent.write (frame d))) = l.map frame := by
  induction l with
  | nil => rfl
  | cons a t ih => simp [writesOf, List.filterMap_cons] at ih ⊢; exact ih

@[simp] lemma writesOf_deltaLoopWrites (frame : String → String) (items : List (Option String)) :
    writesOf (deltaLoopWrites frame items) = (items.filterMap jsTruthy).map frame := by
  simpa [deltaLoopWrites] using writesOf_map_write frame (items.filterMap jsTruthy)

@[simp] lemma writesOf_cons_write (s : String) (evs : List SinkEvent) :
    writesOf (.write s :: evs) = s :: writesOf evs := rfl
@[simp] lemma writesOf_cons_endR (evs : List SinkEvent) :
    writesOf (.endR :: evs) = writesOf evs := rfl
@[simp] lemma writesOf_cons_setHeader (n v : String) (evs : List SinkEvent) :
    writesOf (.setHeader n v :: evs) = writesOf evs := rfl
@[simp] lemma writesOf_cons_flush (evs : List SinkEvent) :
    writesOf (.flushHeaders :: evs) = writesOf evs := rfl
@[simp] lemma writesOf_cons_status (c : Nat) (evs : List SinkEvent) :
    writesOf (.statusCode c :: evs) = writesOf evs := rfl
@[simp] lemma writesOf_cons_json (b : JBody) (evs : List SinkEvent) :
    writesOf (.jsonBody b :: evs) = writesOf evs := rfl
@[simp] lemma writesOf_cons_send (b : List Nat) (evs : List SinkEvent) :
    writesOf (.sendBytes b :: evs) = writesOf evs := rfl

@[simp] lemma endCount_nil : endCount [] = 0 := rfl

@[simp] lemma endCount_cons_write (s : String) (evs : List SinkEvent) :
    endCount (.write s :: evs) = endCount evs := rfl
@[simp] lemma endCount_cons_endR (evs : List SinkEvent) :
    endCount (.endR :: evs) = endCount evs + 1 := by
  simp [endCount, List.filter_cons]
@[simp] lemma endCount_cons_setHeader (n v : String) (evs : List SinkEvent) :
    endCount (.setHeader n v :: evs) = endCount evs := rfl
@[simp] lemma endCount_cons_flush (evs : List SinkEvent) :
    endCount (.flushHeaders :: evs) = endCount evs := rfl
@[simp] lemma endCount_cons_status (c : Nat) (evs : List SinkEvent) :
    endCount (.statusCode c :: evs) = endCount evs := rfl
@[simp] lemma endCount_cons_json (b : JBody) (evs : List SinkEvent) :
    endCount (.jsonBody b :: evs) = endCount evs := rfl
@[simp] lemma endCount_cons_send (b : List Nat) (evs : List SinkEvent) :
    endCount (.sendBytes b :: evs) = endCount evs := rfl

@[simp] lemma endCount_append (a b : List SinkEvent) :
    endCount (a ++ b) = endCount a + endCount b := by
  simp [endCount]

@[simp] lemma endCount_sseHeaders2 : endCount sseHeaders2 = 0 := rfl

@[simp] lemma endCount_sseHeaders4 : endCount sseHeaders4 = 0 := rfl

@[simp] lemma endCount_deltaLoopWrites (frame : String → String) (items : List (Option String)) :
    endCount (deltaLoopWrites frame items) = 0 := by
  simp [endCount, deltaLoopWrites, List.filter_map, Function.comp]

/-! ### Trim behaviour of the SSML template -/

lemma reverse_append_speak (x : List Char) :
    (x ++ ("</speak>").data).reverse = '>' :: (("kaeps/<").data ++ x.reverse) := by
  rw [List.reverse_append]
  have h : (("</speak>").data).reverse = '>' :: ("kaeps/<").data := by decide
  rw [h]
  rfl

lemma revDropWhile_speak (x : List Char) :
    ((x ++ ("</speak>").data).reverse.dropWhile isJsSpace).reverse = x ++ ("</speak>").data := by
  rw [reverse_append_speak]
  have h : isJsSpace ('>') = false := by decide
  rw [List.dropWhile_cons, h]
  simp only [Bool.false_eq_true, if_false]
  rw [← reverse_append_speak, List.reverse_reverse]

lemma trimChars_doc (x : List Char) :
    ((('\n' :: '<' :: (x ++ ("</speak>").data)).dropWhile isJsSpace).reverse.dropWhile
        isJsSpace).reverse = '<' :: (x ++ ("</speak>").data) := by
  have h1 : isJsSpace ('\n') = true := by decide
  have h2 : isJsSpace ('<') = false := by decide
  rw [List.dropWhile_cons, h1, if_pos rfl, List.dropWhile_cons, h2]
  simp only [Bool.false_eq_true, if_false]
  have h3 : '<' :: (x ++ ("</speak>").data) = ('<' :: x) ++ ("</speak>").data := rfl
  rw [h3]
  exact revDropWhile_speak ('<' :: x)

/-- The `.trim()` of the SSML template removes exactly the leading newline of
the template literal: the document otherwise starts with `<speak` and ends with
`</speak>`, neither of which is whitespace. -/
lemma jsTrimS_doc (mid : String) :
    jsTrimS (("\n<speak version=\"1.0\" ") ++ mid ++ ("\n  </voice>\n</speak>")) =
      ("<speak version=\"1.0\" ") ++ mid ++ ("\n  </voice>\n</speak>") := by
  apply String.ext
  have hA : ("\n<speak version=\"1.0\" ").data =
      '\n' :: '<' :: ("speak version=\"1.0\" ").data := rfl
  have hA2 : ("<speak version=\"1.0\" ").data = '<' :: ("speak version=\"1.0\" ").data := rfl
  have hS : ("\n  </voice>\n</speak>").data =
      ("\n  </voice>\n").data ++ ("</speak>").data := rfl
  have hd : ((("\n<speak version=\"1.0\" ") ++ mid ++ ("\n  </voice>\n</speak>"))).data =
      '\n' :: '<' :: (((("speak version=\"1.0\" ").data ++ mid.data ++
        ("\n  </voice>\n").data) ++ ("</speak>").data)) := by
    rw [string_data_append, string_data_append, hA, hS]
    simp only [List.cons_append, List.append_assoc]
  have hd2 : ((("<speak version=\"1.0\" ") ++ mid ++ ("\n  </voice>\n</speak>"))).data =
      '<' :: (((("speak version=\"1.0\" ").data ++ mid.data ++
        ("\n  </voice>\n").data) ++ ("</speak>").data)) := by
    rw [string_data_append, string_data_append, hA2, hS]
    simp only [List.cons_append, List.append_assoc]
  show ((((("\n<speak version=\"1.0\" ") ++ mid ++
      ("\n  </voice>\n</speak>"))).data.dropWhile isJsSpace).reverse.dropWhile
        isJsSpace).reverse = _
  rw [hd, hd2]
  exact trimChars_doc _

/-! ### Claim theorems -/

/-- Claim C2: for every input string passed as the text parameter of SSML
generation, each occurrence of the five reserved markup characters is replaced
by its named entity before embedding into the markup document; the escaping is
a single pass applied exactly once per call (the ampersands introduced by the
transform are not re-escaped), and the escape step is never skipped: `escapeXml`
equals the one-pass character map `singlePassEscape`, and `buildSSML` always
embeds exactly `escapeXml text` in the text slot of its template. -/
theorem c2_escape_xml_single_pass :
    (∀ s : String, escapeXml s = singlePassEscape s) ∧
    (∀ p : SSMLParams, buildSSML p = jsTrimS (ssmlPre p ++ escapeXml p.text ++ ssmlPost p)) := by
  constructor
  · intro s
    exact congrArg String.mk (escapeXmlData_eq_flatMap s.data)
  · intro p
    unfold buildSSML ssmlPre ssmlPost
    refine congrArg jsTrimS ?_
    simp only [string_append_assoc]

set_option maxHeartbeats 16000000 in
set_option maxRecDepth 100000 in
/-- Claim C10: in SSML generation only the text parameter is escaped; the voice
identifier, style name, style intensity, rate, pitch and volume parameters are
interpolated verbatim and unescaped into element and attribute positions of the
emitted document (first conjunct: the full template characterisation where every
non-text parameter appears raw and only the text passes through `escapeXml`;
second conjunct: a concrete instance where reserved markup characters placed in
the voice, style, style-degree and rate parameters survive verbatim while the
same characters in the text are converted to entities). -/
theorem c10_only_text_escaped :
    (∀ p : SSMLParams, buildSSML p =
      ("<speak version=\"1.0\" ") ++ ssmlNs ++ (" xml:lang=\"") ++
      jsSubstring05 p.voice ++ ("\">\n  <voice name=\"") ++ p.voice ++
      ("\">\n    <mstts:silence type=\"Leading\" value=\"") ++ Nat.repr p.leadingSilenceMs ++
      ("ms\"/>\n    <mstts:silence type=\"Tailing\" value=\"") ++ Nat.repr p.trailingSilenceMs ++
      ("ms\"/>\n    ") ++ expressOpenOf p ++ ("\n      ") ++ openProsodyOf p ++
      ("\n        ") ++ escapeXml p.text ++ ("\n      ") ++ closeProsodyOf p ++
      ("\n    ") ++ expressCloseOf p ++ ("\n  </voice>\n</speak>")) ∧
    buildSSML { text := "x<y&z", voice := "fr-FR-A\"B<C", style := some ("whisper\"<"),
                styleDegree := some ("2\""), rate := some ("+10%<") } =
      "<speak version=\"1.0\" xmlns:mstts=\"https://www.w3.org/2001/mstts\" xml:lang=\"fr-FR\">\n  <voice name=\"fr-FR-A\"B<C\">\n    <mstts:silence type=\"Leading\" value=\"0ms\"/>\n    <mstts:silence type=\"Tailing\" value=\"0ms\"/>\n    <mstts:express-as style=\"whisper\"<\" styledegree=\"2\"\">\n      <prosody rate=\"+10%<\">\n        x&lt;y&amp;z\n      </prosody>\n    </mstts:express-as>\n  </voice>\n</speak>" := by
  constructor
  · intro p
    have hmid : buildSSML p = jsTrimS (("\n<speak version=\"1.0\" ") ++
        (ssmlNs ++ (" xml:lang=\"") ++ jsSubstring05 p.voice ++ ("\">\n  <voice name=\"") ++
         p.voice ++ ("\">\n    <mstts:silence type=\"Leading\" value=\"") ++
         Nat.repr p.leadingSilenceMs ++ ("ms\"/>\n    <mstts:silence type=\"Tailing\" value=\"") ++
         Nat.repr p.trailingSilenceMs ++ ("ms\"/>\n    ") ++ expressOpenOf p ++ ("\n      ") ++
         openProsodyOf p ++ ("\n        ") ++ escapeXml p.text ++ ("\n      ") ++
         closeProsodyOf p ++ ("\n    ") ++ expressCloseOf p) ++ ("\n  </voice>\n</speak>")) := by
      unfold buildSSML
      refine congrArg jsTrimS ?_
      simp only [string_append_assoc]
    rw [hmid, jsTrimS_doc]
    simp only [string_append_assoc]
  · decide

/-! ### Frame traces of the streaming handlers -/

lemma vertex_writes (messages : List ChatMsg) (run : StreamRun) :
    writesOf ((vertexChatStreamingH messages run).sink) =
      (run.items.filterMap jsTruthy).map deltaFrameText ++
        (match run.err with
         | none => [doneFrameText]
         | some m => [errorFrameText m, doneFrameText]) := by
  cases h : run.err <;> simp [vertexChatStreamingH, h]

lemma vertex_endCount (messages : List ChatMsg) (run : StreamRun) :
    endCount ((vertexChatStreamingH messages run).sink) = 1 := by
  cases h : run.err <;> simp [vertexChatStreamingH, h]

lemma openaiSimulateur_writes (body : ChatBody) (run : StreamRun) :
    writesOf ((openaiSimulateurH body run).sink) =
      (run.items.filterMap jsTruthy).map choicesFrameText ++
        (match run.err with
         | none => [usageFrameText (run.usageTokens.getD 0), doneFrameText]
         | some _ => []) := by
  cases h : run.err <;> simp [openaiSimulateurH, h]

lemma openaiSimulateur_endCount (body : ChatBody) (run : StreamRun) :
    endCount ((openaiSimulateurH body run).sink) =
      (match run.err with | none => 1 | some _ => 0) := by
  cases h : run.err <;> simp [openaiSimulateurH, h]

lemma assistantStreaming_writes (body : AssistantStreamBody) (createdId : String)
    (run : StreamRun) :
    writesOf ((assistantStreamingH body createdId run).sink) =
      (match jsTruthy body.threadId with
       | some _ => []
       | none => [threadIdFrameText createdId]) ++
      (run.items.filterMap jsTruthy).map deltaFrameText ++
        (match run.err with
         | none => [doneFrameText]
         | some _ => []) := by
  cases ht : jsTruthy body.threadId <;> cases h : run.err <;>
    simp [assistantStreamingH, ht, h]

lemma assistantStreaming_endCount (body : AssistantStreamBody) (createdId : String)
    (run : StreamRun) :
    endCount ((assistantStreamingH body createdId run).sink) =
      (match run.err with | none => 1 | some _ => 0) := by
  cases ht : jsTruthy body.threadId <;> cases h : run.err <;>
    simp [assistantStreamingH, ht, h]

lemma openaiAnalyse_writes (body : ChatBody) (run : StreamRun) :
    writesOf ((openaiAnalyseH body run).sink) =
      (run.items.filterMap jsTruthy).map deltaFrameText ++
        (match run.err with
         | none => [doneFrameText]
         | some _ => [errorFrameText ("Errore durante lo streaming AI.")]) := by
  cases h : run.err <;> simp [openaiAnalyseH, h]

lemma openaiAnalyse_endCount (body : ChatBody) (run : StreamRun) :
    endCount ((openaiAnalyseH body run).sink) = 1 := by
  cases h : run.err <;> simp [openaiAnalyseH, h]

/-- Claim C1, counterexample: on the failure path of the `openaiAnalyse` SSE
streaming branch the response sink is closed exactly once, but the final frame
written before closing is the error frame, not the `data: [DONE]` sentinel —
the claim is false at this concrete input. -/
theorem c1_done_sentinel_counterexample :
    endCount ((openaiAnalyseH ⟨("gpt-4o"), []⟩ ⟨[], some ("boom"), none⟩).sink) = 1 ∧
    (writesOf ((openaiAnalyseH ⟨("gpt-4o"), []⟩ ⟨[], some ("boom"), none⟩).sink)).getLast? =
      some (errorFrameText ("Errore durante lo streaming AI.")) ∧
    errorFrameText ("Errore durante lo streaming AI.") ≠ doneFrameText := by
  refine ⟨by decide, by decide, by decide⟩

/-- Claim C1 (amended): across the four SSE streaming branches, on every
success path the `[DONE]` sentinel is the final frame and the sink is closed
exactly once, and on the `vertexChat` streaming failure path exactly one error
frame is written, followed immediately by the `[DONE]` sentinel, before the one
close. The `openaiAnalyse` failure path deviates from the claim: it writes
exactly one error frame (with a fixed message) as the final frame and closes
the sink without a `[DONE]` sentinel; the `openaiSimulateur` and
`assistantOpenaiAnalyseStreaming` failure paths write neither an error frame
nor a sentinel — the upstream error escapes to the router, leaving the sink
unclosed by the branch. -/
theorem c1_done_sentinel_amended (messages : List ChatMsg) (body : ChatBody)
    (asb : AssistantStreamBody) (createdId : String) (run : StreamRun) :
    (writesOf ((vertexChatStreamingH messages run).sink) =
        (run.items.filterMap jsTruthy).map deltaFrameText ++
          (match run.err with
           | none => [doneFrameText]
           | some m => [errorFrameText m, doneFrameText]) ∧
      endCount ((vertexChatStreamingH messages run).sink) = 1) ∧
    (writesOf ((openaiSimulateurH body run).sink) =
        (run.items.filterMap jsTruthy).map choicesFrameText ++
          (match run.err with
           | none => [usageFrameText (run.usageTokens.getD 0), doneFrameText]
           | some _ => []) ∧
      endCount ((openaiSimulateurH body run).sink) =
        (match run.err with | none => 1 | some _ => 0) ∧
      (openaiSimulateurH body run).thrown =
        run.err.map (fun m => JsError.upstreamError m none)) ∧
    (writesOf ((assistantStreamingH asb createdId run).sink) =
        (match jsTruthy asb.threadId with
         | some _ => []
         | none => [threadIdFrameText createdId]) ++
        (run.items.filterMap jsTruthy).map deltaFrameText ++
          (match run.err with
           | none => [doneFrameText]
           | some _ => []) ∧
      endCount ((assistantStreamingH asb createdId run).sink) =
        (match run.err with | none => 1 | some _ => 0)) ∧
    (writesOf ((openaiAnalyseH body run).sink) =
        (run.items.filterMap jsTruthy).map deltaFrameText ++
          (match run.err with
           | none => [doneFrameText]
           | some _ => [errorFrameText ("Errore durante lo streaming AI.")]) ∧
      endCount ((openaiAnalyseH body run).sink) = 1) :=
  ⟨⟨vertex_writes messages run, vertex_endCount messages run⟩,
   ⟨openaiSimulateur_writes body run, openaiSimulateur_endCount body run, rfl⟩,
   ⟨assistantStreaming_writes asb createdId run, assistantStreaming_endCount asb createdId run⟩,
   ⟨openaiAnalyse_writes body run, openaiAnalyse_endCount body run⟩⟩

/-- Claim C4: for every SSE streaming chat relay and every sequence of upstream
events, the relay writes exactly one frame per upstream delta event (an event
whose delta content passes the source's `if (delta)` presence check) and the
delta frames appear on the client sink as the `map` of the frame constructor
over the received delta sequence — in exactly the arrival order, with no
reordering, buffering or coalescing — followed only by the terminal frames of
the branch. -/
theorem c4_one_frame_per_delta_in_order (messages : List ChatMsg) (body : ChatBody)
    (asb : AssistantStreamBody) (createdId : String) (run : StreamRun) :
    (writesOf ((openaiSimulateurH body run).sink) =
        (run.items.filterMap jsTruthy).map choicesFrameText ++
          (match run.err with
           | none => [usageFrameText (run.usageTokens.getD 0), doneFrameText]
           | some _ => [])) ∧
    (writesOf ((vertexChatStreamingH messages run).sink) =
        (run.items.filterMap jsTruthy).map deltaFrameText ++
          (match run.err with
           | none => [doneFrameText]
           | some m => [errorFrameText m, doneFrameText])) ∧
    (writesOf ((assistantStreamingH asb createdId run).sink) =
        (match jsTruthy asb.threadId with
         | some _ => []
         | none => [threadIdFrameText createdId]) ++
        (run.items.filterMap jsTruthy).map deltaFrameText ++
          (match run.err with
           | none => [doneFrameText]
           | some _ => [])) ∧
    (writesOf ((openaiAnalyseH body run).sink) =
        (run.items.filterMap jsTruthy).map deltaFrameText ++
          (match run.err with
           | none => [doneFrameText]
           | some _ => [errorFrameText ("Errore durante lo streaming AI.")])) :=
  ⟨openaiSimulateur_writes body run, vertex_writes messages run,
   assistantStreaming_writes asb createdId run, openaiAnalyse_writes body run⟩

/-! ### Poll loop facts -/

lemma pollLoop_terminal (tid rid : String) (l : List String) (st : String)
    (h : (pollLoop tid rid l).2 = some st) : st = "completed" ∨ st = "failed" := by
  induction l with
  | nil => simp [pollLoop] at h
  | cons s rest ih =>
    by_cases hs : s = "completed" ∨ s = "failed"
    · simp [pollLoop, hs] at h
      subst h
      exact hs
    · simp [pollLoop, hs] at h
      exact ih h

lemma pollLoop_acts (tid rid : String) (l : List String) :
    ∀ a ∈ (pollLoop tid rid l).1, a = .sleep 1000 ∨ a = .runsRetrieve tid rid := by
  induction l with
  | nil => simp [pollLoop]
  | cons s rest ih =>
    by_cases hs : s = "completed" ∨ s = "failed"
    · simp [pollLoop, hs]
    · simp only [pollLoop, hs, if_false]
      intro a ha
      simp only [List.mem_append, List.mem_cons, List.mem_singleton] at ha
      rcases ha with (h1 | h1 | h1) | h1
      · exact Or.inl h1
      · exact Or.inr h1
      · exact absurd h1 (by simp)
      · exact ih a h1

/-- Claim C3: the poll-based analysis handler creates an upstream thread and
run, then repeatedly retrieves the run status — with a fixed 1000 ms sleep
before each retrieve — until the status is "completed" or "failed"; when the
terminal status is anything other than "completed" the response is HTTP 500
with body `{error: "Assistant run failed", details: <status>}` and no result
message is returned; when it is "completed" the most recent thread message is
fetched (`limit 1`, descending) and returned as a single batch JSON result with
no streaming (no SSE frame is ever written by this branch). -/
theorem c3_poll_until_complete (messages : List ChatMsg) (tid rid : String)
    (statuses : List String) (lastMessage : Option String) (st : String)
    (h : (pollLoop tid rid statuses).2 = some st) :
    assistantAnalyseH messages tid rid statuses lastMessage =
      some
        { upstream := [.threadsCreate messages, .runsCreate tid] ++ (pollLoop tid rid statuses).1 ++
            (if st ≠ "completed" then [] else [.messagesList tid 1 ("desc")])
          sink :=
            if st ≠ "completed" then
              [.statusCode 500,
               .jsonBody [(("error"), .str ("Assistant run failed")), (("details"), .str st)]]
            else
              [.jsonBody [(("answer"), .str (lastMessage.getD ("")))]]
          thrown := none } ∧
    (st = "completed" ∨ st = "failed") ∧
    (∀ a ∈ (pollLoop tid rid statuses).1, a = .sleep 1000 ∨ a = .runsRetrieve tid rid) ∧
    (∀ out, assistantAnalyseH messages tid rid statuses lastMessage = some out →
      writesOf out.sink = []) := by
  refine ⟨?_, pollLoop_terminal tid rid statuses st h, pollLoop_acts tid rid statuses, ?_⟩
  · simp only [assistantAnalyseH, h]
  · intro out hout
    simp only [assistantAnalyseH, h, Option.some_inj] at hout
    subst hout
    by_cases hc : st = "completed" <;> simp [hc, writesOf]

/-- Witness for C3 at a concrete input: the oracle polls "in_progress" then
"failed"; the branch answers 500 `{error: "Assistant run failed",
details: "failed"}` after two sleep/retrieve pairs, with no frame written. -/
theorem c3_poll_until_complete_witness :
    (pollLoop ("t1") ("r1") [("in_progress"), ("failed")]).2 = some ("failed") ∧
    assistantAnalyseH [] ("t1") ("r1") [("in_progress"), ("failed")] none =
      some
        { upstream := [.threadsCreate [], .runsCreate ("t1")] ++
            (pollLoop ("t1") ("r1") [("in_progress"), ("failed")]).1 ++
            (if ("failed" : String) ≠ "completed" then [] else [.messagesList ("t1") 1 ("desc")])
          sink :=
            if ("failed" : String) ≠ "completed" then
              [.statusCode 500,
               .jsonBody [(("error"), .str ("Assistant run failed")),
                          (("details"), .str ("failed"))]]
            else
              [.jsonBody [(("answer"), .str (Option.getD none ("")))]]
          thrown := none } ∧
    (("failed" : String) = "completed" ∨ ("failed" : String) = "failed") ∧
    (∀ a ∈ (pollLoop ("t1") ("r1") [("in_progress"), ("failed")]).1,
      a = .sleep 1000 ∨ a = .runsRetrieve ("t1") ("r1")) ∧
    (∀ out, assistantAnalyseH [] ("t1") ("r1") [("in_progress"), ("failed")] none = some out →
      writesOf out.sink = []) :=
  ⟨by decide,
   (c3_poll_until_complete [] ("t1") ("r1") [("in_progress"), ("failed")] none ("failed")
      (by decide)).1,
   (c3_poll_until_complete [] ("t1") ("r1") [("in_progress"), ("failed")] none ("failed")
      (by decide)).2⟩

/-- Claim C5, counterexample: the `azureTTS-Scaleway` speech branch has a
language-to-voice map, and for a request with unmapped target language
"italien" and no override voice it does not answer 400
`{error: "Not supported language"}` — the voice computation silently
substitutes the default voice `fr-FR-RemyMultilingualNeural`, and the routed
response is the generic 500 `API request error` (from the undeclared `style`
reference), so the claim fails at this concrete input. -/
theorem c5_unsupported_language_counterexample :
    azureScalewayVoice none (some ("italien")) = ("fr-FR-RemyMultilingualNeural") ∧
    azureVoiceMap (jsToLower (jsTrimS ("italien"))) = none ∧
    routedSink ("azureTTS-Scaleway")
        (azureTtsScalewayH (some ("k")) (some ("r")) ⟨some ("Hola"), some ("italien"), none⟩) ≠
      [.statusCode 400, .jsonBody [(("error"), JVal.str ("Not supported language"))]] ∧
    (azureTtsScalewayH (some ("k")) (some ("r")) ⟨some ("Hola"), some ("italien"), none⟩).upstream
      = [] := by
  refine ⟨by decide, by decide, by decide, by decide⟩

/-- Claim C5 (amended): for the `elevenlabs` speech service, a request whose
trimmed, lowercased target language has no entry in its language-to-voice map
fails with HTTP 400 `{error: "Not supported language"}` and no upstream network
call is issued. The `azureTTS-Scaleway` branch does not share this policy: an
unmapped language with no override voice is silently substituted with the
default voice `fr-FR-RemyMultilingualNeural` (its request then fails with the
generic 500 `API request error` caused by the undeclared `style`, not with the
400 language error). -/
theorem c5_unsupported_language_amended (apiKey : Option String) (body : ElevenBody)
    (up : UpstreamTtsResult)
    (hkey : jsTruthy apiKey ≠ none)
    (hlang : elevenVoiceMap (jsToLower (jsTrimS (body.selectedLanguage.getD ("")))) = none) :
    elevenlabsH apiKey body up =
      ⟨[], [.statusCode 400, .jsonBody [(("error"), .str ("Not supported language"))]], none⟩ ∧
    (elevenlabsH apiKey body up).upstream = [] ∧
    (∀ lang : Option String,
      azureScalewayVoice none lang =
        (azureVoiceMap (jsToLower (jsTrimS (lang.getD (""))))).getD
          ("fr-FR-RemyMultilingualNeural")) := by
  have he : elevenlabsH apiKey body up =
      ⟨[], [.statusCode 400, .jsonBody [(("error"), .str ("Not supported language"))]], none⟩ := by
    simp only [elevenlabsH, hlang]
    rw [if_neg hkey]
  refine ⟨he, by rw [he], fun lang => ?_⟩
  simp [azureScalewayVoice, jsTruthy]

/-- Witness for C5 (amended) at a concrete input: language "italien" is
unmapped for `elevenlabs`, the response is 400 with no upstream call. -/
theorem c5_unsupported_language_amended_witness :
    jsTruthy (some ("key")) ≠ none ∧
    elevenVoiceMap (jsToLower (jsTrimS ((some ("italien") : Option String).getD ("")))) = none ∧
    (elevenlabsH (some ("key")) ⟨some ("Hola"), some ("italien")⟩ (.success []) =
      ⟨[], [.statusCode 400, .jsonBody [(("error"), .str ("Not supported language"))]], none⟩ ∧
    (elevenlabsH (some ("key")) ⟨some ("Hola"), some ("italien")⟩ (.success [])).upstream = [] ∧
    (∀ lang : Option String,
      azureScalewayVoice none lang =
        (azureVoiceMap (jsToLower (jsTrimS (lang.getD (""))))).getD
          ("fr-FR-RemyMultilingualNeural"))) :=
  ⟨by decide, by decide,
   c5_unsupported_language_amended (some ("key")) ⟨some ("Hola"), some ("italien")⟩
     (.success []) (by decide) (by decide)⟩

/-- Claim C6: for every TTS request whose selected voice (after trimming and
lowercasing) is not in the fixed allow-list, or whose voice field is absent,
the default voice "fable" is silently substituted — in both the `openai-tts`
and the `streaming-openai-tts` branches — and voice validation never produces
an error; in particular a request to `openai-tts` with text "Bonjour" and
selectedVoice "bogus" issues the upstream call with voice "fable" and, on
upstream success, answers `audio/mpeg` binary. -/
theorem c6_voice_fallback (sv : Option String) (audioData : List Nat)
    (h : allowedVoices.contains (normVoice sv) = false) :
    openaiTtsVoice sv = ("fable") ∧
    streamingOpenaiTtsVoice sv = ("fable") ∧
    openaiTtsVoice none = ("fable") ∧
    openaiTtsH (some ("k")) ⟨some ("Bonjour"), some ("bogus")⟩ (.success audioData) =
      ⟨[.openaiSpeech ("gpt-4o-mini-tts") ("fable") ("Bonjour")],
       [.setHeader ("Content-Type") ("audio/mpeg"), .sendBytes audioData], none⟩ := by
  refine ⟨?_, ?_, by decide, ?_⟩
  · unfold openaiTtsVoice
    rw [h]
    simp
  · have h2 : allowedVoicesStreaming.contains (normVoice sv) = false := h
    unfold streamingOpenaiTtsVoice
    rw [h2]
    simp
  · have hv : openaiTtsVoice (some ("bogus")) = ("fable") := by decide
    simp [openaiTtsH, jsTruthy, hv]

/-- Witness for C6 at a concrete input: "bogus" is not in the allow-list, so
both voice selections fall back to "fable" and the scenario call succeeds with
`audio/mpeg`. -/
theorem c6_voice_fallback_witness :
    allowedVoices.contains (normVoice (some ("bogus"))) = false ∧
    (openaiTtsVoice (some ("bogus")) = ("fable") ∧
     streamingOpenaiTtsVoice (some ("bogus")) = ("fable") ∧
     openaiTtsVoice none = ("fable") ∧
     openaiTtsH (some ("k")) ⟨some ("Bonjour"), some ("bogus")⟩ (.success [7, 7]) =
       ⟨[.openaiSpeech ("gpt-4o-mini-tts") ("fable") ("Bonjour")],
        [.setHeader ("Content-Type") ("audio/mpeg"), .sendBytes [7, 7]], none⟩) :=
  ⟨by decide, c6_voice_fallback (some ("bogus")) [7, 7] (by decide)⟩

/-- Claim C7: every inbound `POST /api/:service` whose service name matches
none of the closed enumerated set of handled service names receives HTTP 400
with JSON body `{error: "Invalid service"}`, and no upstream call of any kind
is made before responding. -/
theorem c7_invalid_service (handlers : ServiceTag → HandlerOut) (service : String)
    (h : service ∉ handledServices) :
    route handlers service = invalidServiceOut ∧
    invalidServiceOut.upstream = [] ∧
    invalidServiceOut.sink =
      [.statusCode 400, .jsonBody [(("error"), JVal.str ("Invalid service"))]] := by
  refine ⟨?_, rfl, rfl⟩
  simp only [handledServices, List.mem_cons, List.not_mem_nil, or_false, not_or] at h
  obtain ⟨h1, h2, h3, h4, h5, h6, h7, h8, h9, h10, h11, h12, h13, h14⟩ := h
  simp [route, dispatch, h1, h2, h3, h4, h5, h6, h7, h8, h9, h10, h11, h12, h13, h14]

/-- Witness for C7 at a concrete input: "no-such-service" is not a handled
service name and receives the invalid-service response. -/
theorem c7_invalid_service_witness :
    ("no-such-service" : String) ∉ handledServices ∧
    (route (fun _ => invalidServiceOut) ("no-such-service") = invalidServiceOut ∧
     invalidServiceOut.upstream = [] ∧
     invalidServiceOut.sink =
       [.statusCode 400, .jsonBody [(("error"), JVal.str ("Invalid service"))]]) :=
  ⟨by decide, c7_invalid_service (fun _ => invalidServiceOut) ("no-such-service") (by decide)⟩

/-- Claim C8: for the streaming analysis service, a request without a (truthy)
threadId creates a new upstream thread and writes its identifier as the first
frame of the stream, before any delta frame; a request with a threadId appends
each message to that existing thread, creates no new thread, and writes no
threadId frame. -/
theorem c8_conversation_handle (messages : List ChatMsg) (createdId : String)
    (run : StreamRun) (t : String) (ht : t ≠ "") :
    (assistantStreamingH ⟨none, messages⟩ createdId run =
      { upstream := [.threadsCreate messages, .runsCreateStream createdId]
        sink := sseHeaders2 ++ [.write (threadIdFrameText createdId)] ++
          deltaLoopWrites deltaFrameText run.items ++
          (match run.err with
           | none => [.write doneFrameText, .endR]
           | some _ => [])
        thrown := run.err.map (fun m => JsError.upstreamError m none) }) ∧
    (writesOf ((assistantStreamingH ⟨none, messages⟩ createdId run).sink) =
      threadIdFrameText createdId ::
        ((run.items.filterMap jsTruthy).map deltaFrameText ++
          (match run.err with
           | none => [doneFrameText]
           | some _ => []))) ∧
    (assistantStreamingH ⟨some t, messages⟩ createdId run =
      { upstream := messages.map (fun m => .threadMessageCreate t m) ++ [.runsCreateStream t]
        sink := sseHeaders2 ++ deltaLoopWrites deltaFrameText run.items ++
          (match run.err with
           | none => [.write doneFrameText, .endR]
           | some _ => [])
        thrown := run.err.map (fun m => JsError.upstreamError m none) }) ∧
    (∀ ms : List ChatMsg,
      UpstreamAction.threadsCreate ms ∉
        (assistantStreamingH ⟨some t, messages⟩ createdId run).upstream) := by
  have htr : jsTruthy (some t) = some t := by simp [jsTruthy, ht]
  have hsome : assistantStreamingH ⟨some t, messages⟩ createdId run =
      { upstream := messages.map (fun m => .threadMessageCreate t m) ++ [.runsCreateStream t]
        sink := sseHeaders2 ++ deltaLoopWrites deltaFrameText run.items ++
          (match run.err with
           | none => [.write doneFrameText, .endR]
           | some _ => [])
        thrown := run.err.map (fun m => JsError.upstreamError m none) } := by
    simp only [assistantStreamingH, htr]
  refine ⟨by simp only [assistantStreamingH, jsTruthy], ?_, hsome, ?_⟩
  · have hw := assistantStreaming_writes ⟨none, messages⟩ createdId run
    simpa [jsTruthy] using hw
  · intro ms
    rw [hsome]
    simp only [List.mem_append, List.mem_map, List.mem_cons, List.not_mem_nil]
    rintro ((⟨m, -, hm⟩) | (hm | hm)) <;> simp at hm

/-- Witness for C8 at a concrete input: thread id "th-9" is truthy, one message
is appended to it and no thread is created; without a thread id the created
thread's id "new-1" is the first frame. -/
theorem c8_conversation_handle_witness :
    ("th-9" : String) ≠ "" ∧
    (assistantStreamingH ⟨none, [⟨("user"), ("hi")⟩]⟩ ("new-1") ⟨[some ("d1")], none, none⟩ =
      { upstream := [.threadsCreate [⟨("user"), ("hi")⟩], .runsCreateStream ("new-1")]
        sink := sseHeaders2 ++ [.write (threadIdFrameText ("new-1"))] ++
          deltaLoopWrites deltaFrameText [some ("d1")] ++
          (match (none : Option String) with
           | none => [.write doneFrameText, .endR]
           | some _ => [])
        thrown := (none : Option String).map (fun m => JsError.upstreamError m none) } ∧
     writesOf ((assistantStreamingH ⟨none, [⟨("user"), ("hi")⟩]⟩ ("new-1")
         ⟨[some ("d1")], none, none⟩).sink) =
       threadIdFrameText ("new-1") ::
         (([some ("d1")].filterMap jsTruthy).map deltaFrameText ++
           (match (none : Option String) with
            | none => [doneFrameText]
            | some _ => [])) ∧
     assistantStreamingH ⟨some ("th-9"), [⟨("user"), ("hi")⟩]⟩ ("new-1")
         ⟨[some ("d1")], none, none⟩ =
       { upstream := [⟨("user"), ("hi")⟩].map (fun m => .threadMessageCreate ("th-9") m) ++
           [.runsCreateStream ("th-9")]
         sink := sseHeaders2 ++ deltaLoopWrites deltaFrameText [some ("d1")] ++
           (match (none : Option String) with
            | none => [.write doneFrameText, .endR]
            | some _ => [])
         thrown := (none : Option String).map (fun m => JsError.upstreamError m none) } ∧
     (∀ ms : List ChatMsg,
       UpstreamAction.threadsCreate ms ∉
         (assistantStreamingH ⟨some ("th-9"), [⟨("user"), ("hi")⟩]⟩ ("new-1")
           ⟨[some ("d1")], none, none⟩).upstream)) :=
  ⟨by decide,
   c8_conversation_handle [⟨("user"), ("hi")⟩] ("new-1") ⟨[some ("d1")], none, none⟩
     ("th-9") (by decide)⟩

/-- Claim C9: for every request to `azureTTS-Scaleway` with truthy text and
both required credentials present, the branch raises the `ReferenceError` on
the undeclared identifier `style` before building the markup document and
before issuing any upstream call (indeed no path of this branch ever issues an
upstream call), so the request falls through to the router's generic catch and
responds 500 with the generic `API request error` JSON body. -/
theorem c9_style_reference_error (apiKey region : Option String) (body : AzureScalewayBody)
    (htext : jsTruthy body.text ≠ none)
    (hkey : jsTruthy apiKey ≠ none)
    (hreg : jsTruthy region ≠ none) :
    azureTtsScalewayH apiKey region body =
      ⟨[], [], some (.referenceError ("style is not defined"))⟩ ∧
    (∀ k r b, (azureTtsScalewayH k r b).upstream = []) ∧
    routedSink ("azureTTS-Scaleway") (azureTtsScalewayH apiKey region body) =
      [.statusCode 500,
       .jsonBody [(("error"), .str ("API request error")),
                  (("service"), .str ("azureTTS-Scaleway")),
                  (("status"), .num 500),
                  (("message"), .str ("style is not defined")),
                  (("requestId"), .str (""))]] := by
  have hh : azureTtsScalewayH apiKey region body =
      ⟨[], [], some (.referenceError ("style is not defined"))⟩ := by
    unfold azureTtsScalewayH
    rw [if_neg htext, if_neg (by simp [hkey, hreg])]
  refine ⟨hh, ?_, ?_⟩
  · intro k r b
    unfold azureTtsScalewayH
    split
    · rfl
    split <;> rfl
  · rw [hh]
    rfl

/-- Witness for C9 at a concrete input: text "Bonjour", credentials present —
the branch throws and the routed response is the generic 500 body. -/
theorem c9_style_reference_error_witness :
    jsTruthy (some ("Bonjour")) ≠ none ∧
    jsTruthy (some ("k")) ≠ none ∧
    jsTruthy (some ("r")) ≠ none ∧
    (azureTtsScalewayH (some ("k")) (some ("r")) ⟨some ("Bonjour"), some ("français"), none⟩ =
      ⟨[], [], some (.referenceError ("style is not defined"))⟩ ∧
     (∀ k r b, (azureTtsScalewayH k r b).upstream = []) ∧
     routedSink ("azureTTS-Scaleway")
        (azureTtsScalewayH (some ("k")) (some ("r")) ⟨some ("Bonjour"), some ("français"), none⟩) =
       [.statusCode 500,
        .jsonBody [(("error"), .str ("API request error")),
                   (("service"), .str ("azureTTS-Scaleway")),
                   (("status"), .num 500),
                   (("message"), .str ("style is not defined")),
                   (("requestId"), .str (""))]]) :=
  ⟨by decide, by decide, by decide,
   c9_style_reference_error (some ("k")) (some ("r"))
     ⟨some ("Bonjour"), some ("français"), none⟩ (by decide) (by decide) (by decide)⟩

end BackendScaleway
